import Mathlib

/-!
Shallow embedding of `pipeline.py`, a command-line text-enrichment script.

The script wires three external NLP libraries (sumy extractive summarization,
spaCy named-entity recognition, VADER sentiment scoring) into a linear
pipeline: acquire text, enrich it, aggregate a result record, write it as
JSON and optionally as an HTML report.

Modelling conventions:
* the external libraries are abstracted as function parameters or fields of
  an `Env` record (the summarizer ranking, the NER model, the VADER scorer,
  the model loader/downloader);
* file-system effects are modelled by `Env.readFile` / `Env.writeOk` and the
  list of files a run persists, in write order;
* Python floats are modelled as rationals; Python `str.strip()` is modelled
  by `pyStrip` over the ASCII whitespace characters recognised by
  `Char.isWhitespace`;
* JSON values are modelled by the inductive `Json`; `json.dump`/`json.load`
  round-tripping of a concrete value is a property of the external `json`
  library, so serialization is modelled at the level of the written object.
-/

/-- Errors a run can abort with: `osError` models the `OSError` raised by a
missing spaCy model (the only exception `main` catches), `eofError` models
`input()` hitting end of stream, `ioError p` models an unreadable or
unwritable path `p`. -/
inductive Err where
  | osError : Err
  | eofError : Err
  | ioError : String → Err
deriving DecidableEq, Repr

/-- An entity as emitted by the external spaCy model: surface text, label,
and character-span offsets (`ent.start_char` / `ent.end_char`). -/
structure SpacyEnt where
  text : String
  label_ : String
  start_char : Nat
  end_char : Nat
deriving DecidableEq, Repr

/-- The record `extract_entities` builds for each entity: only the keys
`text` and `label` (the model's character spans are discarded). -/
structure EntityRecord where
  text : String
  label : String
deriving DecidableEq, Repr

/-- The four-component polarity mapping returned by
`SentimentIntensityAnalyzer.polarity_scores` (keys `neg`, `neu`, `pos`,
`compound`), with floats modelled as rationals. -/
structure PolarityScores where
  neg : ℚ
  neu : ℚ
  pos : ℚ
  compound : ℚ
deriving DecidableEq, Repr

/-- The dictionary `classify_sentiment` returns:
`{"label": label, "scores": scores}`. -/
structure SentimentResult where
  label : String
  scores : PolarityScores
deriving DecidableEq, Repr

/-- Models Python `str.strip()` with no argument: drop leading and trailing
whitespace characters (over the ASCII whitespace set of
`Char.isWhitespace`). -/
def pyStrip (s : String) : String :=
  ⟨((s.data.dropWhile Char.isWhitespace).reverse.dropWhile Char.isWhitespace).reverse⟩

/-- Embeds `summarize_text` (pipeline.py lines 24-29). The sumy pipeline
`TextRankSummarizer()(PlaintextParser.from_string(text, ...).document,
sentences_count)` is abstracted as the external `summarizer` argument
yielding the ranked sentences as strings; the wrapper space-joins them and
substitutes a fixed placeholder when the joined summary is empty or
whitespace-only (`summary if summary.strip() else ...`). -/
def summarize_text (text : String) (sentences_count : Int)
    (summarizer : String → Int → List String) : String :=
  let summary_sentences := summarizer text sentences_count
  let summary := String.intercalate " " summary_sentences
  if pyStrip summary ≠ "" then summary else "(No clear summary generated.)"

/-- Embeds `extract_entities` (pipeline.py lines 31-33): apply the model to
the text and keep, for each detected entity in order, only its surface text
and label (`[{"text": ent.text, "label": ent.label_} for ent in doc.ents]`). -/
def extract_entities (text : String) (nlp : String → List SpacyEnt) :
    List EntityRecord :=
  (nlp text).map (fun ent => { text := ent.text, label := ent.label_ })

/-- Embeds `classify_sentiment` (pipeline.py lines 35-39): score the text
with the external analyzer, then derive the label from the compound score:
`"positive" if compound >= 0.05 else "negative" if compound <= -0.05 else
"neutral"`. -/
def classify_sentiment (text : String) (analyzer : String → PolarityScores) :
    SentimentResult :=
  let scores := analyzer text
  let compound := scores.compound
  let label :=
    if compound ≥ 5/100 then "positive"
    else if compound ≤ -(5/100) then "negative"
    else "neutral"
  { label := label, scores := scores }

/-- JSON values, as far as this script produces them. -/
inductive Json where
  | str : String → Json
  | num : ℚ → Json
  | arr : List Json → Json
  | obj : List (String × Json) → Json

/-- The keys of a JSON object, in order ([] on non-objects). -/
def Json.objKeys : Json → List String
  | .obj members => members.map Prod.fst
  | _ => []

/-- JSON encoding of one entity record. -/
def entityJson (e : EntityRecord) : Json :=
  .obj [("text", .str e.text), ("label", .str e.label)]

/-- JSON encoding of the VADER score mapping, in the key order VADER
produces it. -/
def scoresJson (s : PolarityScores) : Json :=
  .obj [("neg", .num s.neg), ("neu", .num s.neu),
        ("pos", .num s.pos), ("compound", .num s.compound)]

/-- JSON encoding of the sentiment dictionary. -/
def sentimentJson (r : SentimentResult) : Json :=
  .obj [("label", .str r.label), ("scores", scoresJson r.scores)]

/-- The aggregated `results` dictionary built in `main`
(pipeline.py lines 118-123): summary, entities, sentiment, and the input
text with surrounding whitespace stripped. -/
def resultsJson (summary : String) (entities : List EntityRecord)
    (sentiment : SentimentResult) (text : String) : Json :=
  .obj [("summary", .str summary),
        ("entities", .arr (entities.map entityJson)),
        ("sentiment", sentimentJson sentiment),
        ("original_text", .str (pyStrip text))]

/-- The parsed command-line arguments (pipeline.py lines 74-79).
`input` defaults to `None`, `output` to the empty string, `sentences` to 3,
`no_html` to false. -/
structure Args where
  input : Option String
  output : String
  sentences : Int
  no_html : Bool

/-- The external world a run interacts with: the formatted
`datetime.now()` timestamp, the readable files, the stdin line stream, the
spaCy loader (indexed by attempt number) and downloader, the three NLP
computations, and which paths are writable. -/
structure Env where
  timestamp : String
  readFile : String → Except Err String
  stdinLines : List String
  nlpLoad : Nat → Except Err (String → List SpacyEnt)
  download : Except Err Unit
  summarizer : String → Int → List String
  vader : String → PolarityScores
  writeOk : String → Bool

/-- Interactive input collection (pipeline.py lines 86-90): read lines
until the first empty-or-whitespace-only line; if the stream is exhausted
first, `input()` raises `EOFError`. -/
def collect_stdin_lines : List String → Except Err (List String)
  | [] => .error .eofError
  | line :: rest =>
      if pyStrip line = "" then .ok []
      else
        match collect_stdin_lines rest with
        | .error e => .error e
        | .ok ls => .ok (line :: ls)

/-- Interactive text acquisition: join the collected lines with newlines
(pipeline.py line 91). -/
def readInteractive (env : Env) : Except Err String :=
  match collect_stdin_lines env.stdinLines with
  | .error e => .error e
  | .ok ls => .ok (String.intercalate "\n" ls)

/-- Text acquisition (pipeline.py lines 82-91): `if args.input:` read the
file (truthiness: `None` and `""` both fall through to the interactive
prompt), else read stdin. -/
def acquire_text (args : Args) (env : Env) : Except Err String :=
  match args.input with
  | some p => if p = "" then readInteractive env else env.readFile p
  | none => readInteractive env

/-- Model loading with the download-and-retry recovery
(pipeline.py lines 99-105): try the load; on `OSError` only, download the
model and load again, outside any handler, so a second failure (or a
download failure) propagates. -/
def load_spacy (env : Env) : Except Err (String → List SpacyEnt) :=
  match env.nlpLoad 0 with
  | .ok m => .ok m
  | .error e =>
      if e = Err.osError then
        match env.download with
        | .error d => .error d
        | .ok _ => env.nlpLoad 1
      else .error e

/-- JSON output name selection (pipeline.py line 95):
`args.output or f"results_{timestamp}.json"` — Python string truthiness,
so the empty string falls back to the timestamped name. -/
def json_name (output timestamp : String) : String :=
  if output = "" then "results_" ++ timestamp ++ ".json" else output

/-- HTML output name (pipeline.py line 96): always timestamp-derived. -/
def html_name (timestamp : String) : String :=
  "report_" ++ timestamp ++ ".html"

/-- A file a run persists: the JSON results file written by `save_json`
(pipeline.py lines 41-43), or the HTML report written by
`make_html_report` from the same results record (the HTML string template
is not inspected by any property, so the report is represented by the
record it renders). -/
inductive FileData where
  | jsonFile : Json → FileData
  | htmlFile : Json → FileData

/-- The aggregated results record a run with acquired `text` and loaded
model `nlp` produces (pipeline.py lines 109-123). -/
def run_results (args : Args) (env : Env) (text : String)
    (nlp : String → List SpacyEnt) : Json :=
  resultsJson (summarize_text text args.sentences env.summarizer)
    (extract_entities text nlp)
    (classify_sentiment text env.vader)
    text

/-- The output stage (pipeline.py lines 125-130): write the JSON file; if
that fails nothing is persisted and the run aborts; on success, unless
`--no-html` is set, write the HTML report — a failure there aborts the run
but the JSON file is already on disk. Returns the run outcome and the
files persisted, in write order. -/
def enrich_and_output (args : Args) (env : Env) (text : String)
    (nlp : String → List SpacyEnt) :
    Except Err Unit × List (String × FileData) :=
  let results := run_results args env text nlp
  let jn := json_name args.output env.timestamp
  let hn := html_name env.timestamp
  if env.writeOk jn then
    if args.no_html then (.ok (), [(jn, .jsonFile results)])
    else if env.writeOk hn then
      (.ok (), [(jn, .jsonFile results), (hn, .htmlFile results)])
    else (.error (.ioError hn), [(jn, .jsonFile results)])
  else (.error (.ioError jn), [])

/-- The whole `main` (pipeline.py lines 73-130): acquire text, load the
model (with the one-shot download recovery), enrich, aggregate, write. Any
stage failure short-circuits. -/
def main_run (args : Args) (env : Env) :
    Except Err Unit × List (String × FileData) :=
  match acquire_text args env with
  | .error e => (.error e, [])
  | .ok text =>
      match load_spacy env with
      | .error e => (.error e, [])
      | .ok nlp => enrich_and_output args env text nlp

/-! ### Sample environments used by concrete witnesses and counterexamples -/

/-- A one-entity NER model used by the sample environment. -/
def nlp0 : String → List SpacyEnt := fun _ => [⟨"Alice", "PERSON", 0, 5⟩]

/-- A fully successful sample environment. -/
def env0 : Env :=
  { timestamp := "20251012_120000",
    readFile := fun _ => .ok "Alice met Bob.",
    stdinLines := ["hello", ""],
    nlpLoad := fun _ => .ok nlp0,
    download := .ok (),
    summarizer := fun _ _ => ["Alice met Bob."],
    vader := fun _ => ⟨0, 1, 0, 0⟩,
    writeOk := fun _ => true }

/-- Default-like arguments: a readable input file, empty output override,
three summary sentences, HTML enabled. -/
def args0 : Args :=
  { input := some "in.txt", output := "", sentences := 3, no_html := false }

/-- Like `env0` but the HTML report path is unwritable. -/
def envBadHtml : Env :=
  { env0 with writeOk := fun n => n != "report_20251012_120000.html" }

/-- Like `env0` but the input file is unreadable. -/
def envBadRead : Env :=
  { env0 with readFile := fun p => .error (.ioError p) }

/-- Like `env0` but the NER model is missing locally and the retried load
after the download fails too. -/
def envC9 : Env :=
  { env0 with nlpLoad := fun n =>
      if n = 0 then .error .osError else .error (.ioError "load") }

/-! ### Helper lemmas -/

/-- Unfolding lemma: `summarize_text` as one conditional. -/
lemma summarize_text_eq (text : String) (n : Int)
    (s : String → Int → List String) :
    summarize_text text n s =
      if pyStrip (String.intercalate " " (s text n)) ≠ "" then
        String.intercalate " " (s text n)
      else "(No clear summary generated.)" := rfl

/-- Unfolding lemma: the label computed by `classify_sentiment`. -/
lemma classify_sentiment_label (text : String)
    (analyzer : String → PolarityScores) :
    (classify_sentiment text analyzer).label =
      if (analyzer text).compound ≥ 5/100 then "positive"
      else if (analyzer text).compound ≤ -(5/100) then "negative"
      else "neutral" := rfl

/-- Unfolding lemma: the aggregated results record, member by member. -/
lemma run_results_eq (args : Args) (env : Env) (text : String)
    (nlp : String → List SpacyEnt) :
    run_results args env text nlp =
      Json.obj
        [("summary", .str (summarize_text text args.sentences env.summarizer)),
         ("entities", .arr ((extract_entities text nlp).map entityJson)),
         ("sentiment", sentimentJson (classify_sentiment text env.vader)),
         ("original_text", .str (pyStrip text))] := rfl

/-- On a successful output stage, the JSON path was writable and the
persisted files are the JSON results followed by the HTML report unless
`--no-html` suppressed it. -/
lemma enrich_and_output_ok (args : Args) (env : Env) (text : String)
    (nlp : String → List SpacyEnt)
    (h : (enrich_and_output args env text nlp).1 = .ok ()) :
    env.writeOk (json_name args.output env.timestamp) = true ∧
    (args.no_html = false → env.writeOk (html_name env.timestamp) = true) ∧
    (enrich_and_output args env text nlp).2 =
      (json_name args.output env.timestamp,
        .jsonFile (run_results args env text nlp)) ::
        (if args.no_html then []
         else [(html_name env.timestamp,
           .htmlFile (run_results args env text nlp))]) := by
  unfold enrich_and_output at h ⊢
  by_cases hj : env.writeOk (json_name args.output env.timestamp) = true
  · rw [if_pos hj] at h ⊢
    by_cases hn : args.no_html = true
    · rw [if_pos hn] at h
      rw [if_pos hn, if_pos hn]
      exact ⟨hj, fun hc => by rw [hn] at hc; exact Bool.noConfusion hc, rfl⟩
    · rw [if_neg hn] at h
      rw [if_neg hn, if_neg hn]
      by_cases hh : env.writeOk (html_name env.timestamp) = true
      · rw [if_pos hh] at h
        rw [if_pos hh]
        exact ⟨hj, fun _ => hh, rfl⟩
      · rw [if_neg hh] at h
        simp at h
  · rw [if_neg hj] at h
    simp at h

/-- On a successful run, the acquired text and loaded model exist, the JSON
path was writable, and the persisted files are fully characterised. -/
lemma main_run_ok_spec (args : Args) (env : Env)
    (h : (main_run args env).1 = .ok ()) :
    ∃ text nlp, acquire_text args env = .ok text ∧ load_spacy env = .ok nlp ∧
      env.writeOk (json_name args.output env.timestamp) = true ∧
      (args.no_html = false → env.writeOk (html_name env.timestamp) = true) ∧
      (main_run args env).2 =
        (json_name args.output env.timestamp,
          .jsonFile (run_results args env text nlp)) ::
          (if args.no_html then []
           else [(html_name env.timestamp,
             .htmlFile (run_results args env text nlp))]) := by
  unfold main_run at h ⊢
  cases hA : acquire_text args env with
  | error e => rw [hA] at h; simp at h
  | ok text =>
      rw [hA] at h
      cases hL : load_spacy env with
      | error e => rw [hL] at h; simp at h
      | ok nlp =>
          rw [hL] at h
          obtain ⟨hw, hh, h2⟩ := enrich_and_output_ok args env text nlp h
          exact ⟨text, nlp, rfl, rfl, hw, hh, h2⟩

/-- On a failed output stage, either nothing was persisted or only the JSON
file was, the latter exactly when the HTML write failed. -/
lemma enrich_and_output_err (args : Args) (env : Env) (text : String)
    (nlp : String → List SpacyEnt) (e : Err)
    (h : (enrich_and_output args env text nlp).1 = .error e) :
    (enrich_and_output args env text nlp).2 = [] ∨
    (args.no_html = false ∧ env.writeOk (html_name env.timestamp) = false ∧
      (enrich_and_output args env text nlp).2.map Prod.fst =
        [json_name args.output env.timestamp]) := by
  unfold enrich_and_output at h ⊢
  by_cases hj : env.writeOk (json_name args.output env.timestamp) = true
  · rw [if_pos hj] at h ⊢
    by_cases hn : args.no_html = true
    · rw [if_pos hn] at h
      simp at h
    · rw [if_neg hn] at h
      rw [if_neg hn]
      by_cases hh : env.writeOk (html_name env.timestamp) = true
      · rw [if_pos hh] at h
        simp at h
      · rw [if_neg hh] at h ⊢
        refine Or.inr ⟨by simpa using hn, by simpa using hh, rfl⟩
  · rw [if_neg hj] at h ⊢
    exact Or.inl rfl

/-- Once text acquisition and model loading succeed, a run is exactly the
output stage. -/
lemma main_run_eq_enrich (args : Args) (env : Env) (text : String)
    (nlp : String → List SpacyEnt)
    (hT : acquire_text args env = .ok text)
    (hL : load_spacy env = .ok nlp) :
    main_run args env = enrich_and_output args env text nlp := by
  unfold main_run
  rw [hT, hL]

/-- When the JSON path is unwritable, the output stage aborts with nothing
persisted. -/
lemma enrich_and_output_json_unwritable (args : Args) (env : Env)
    (text : String) (nlp : String → List SpacyEnt)
    (hj : env.writeOk (json_name args.output env.timestamp) = false) :
    enrich_and_output args env text nlp =
      (.error (.ioError (json_name args.output env.timestamp)), []) := by
  unfold enrich_and_output
  rw [if_neg (by simp [hj])]

/-- When the JSON path is writable, HTML is enabled, and the HTML path is
unwritable, the output stage aborts with exactly the JSON file persisted. -/
lemma enrich_and_output_html_fail (args : Args) (env : Env) (text : String)
    (nlp : String → List SpacyEnt)
    (hj : env.writeOk (json_name args.output env.timestamp) = true)
    (hn : args.no_html = false)
    (hh : env.writeOk (html_name env.timestamp) = false) :
    enrich_and_output args env text nlp =
      (.error (.ioError (html_name env.timestamp)),
       [(json_name args.output env.timestamp,
         .jsonFile (run_results args env text nlp))]) := by
  unfold enrich_and_output
  rw [if_pos hj, if_neg (by simp [hn]), if_neg (by simp [hh])]

/-- Structure of Python `str.strip()`: the stripped text occurs contiguously
inside the original, surrounded only by whitespace. -/
lemma pyStrip_decomp (s : String) :
    ∃ pre post, s.data = pre ++ (pyStrip s).data ++ post ∧
      (∀ c ∈ pre, c.isWhitespace) ∧ (∀ c ∈ post, c.isWhitespace) := by
  refine ⟨s.data.takeWhile Char.isWhitespace,
    ((s.data.dropWhile Char.isWhitespace).reverse.takeWhile
      Char.isWhitespace).reverse, ?_, ?_, ?_⟩
  · show s.data = _ ++ ((s.data.dropWhile Char.isWhitespace).reverse.dropWhile
      Char.isWhitespace).reverse ++ _
    conv_lhs => rw [← List.takeWhile_append_dropWhile
      (p := Char.isWhitespace) (l := s.data)]
    rw [List.append_assoc]
    congr 1
    conv_lhs => rw [← List.reverse_reverse
      (s.data.dropWhile Char.isWhitespace),
      ← List.takeWhile_append_dropWhile (p := Char.isWhitespace)
        (l := (s.data.dropWhile Char.isWhitespace).reverse),
      List.reverse_append]
  · intro c hc; exact List.mem_takeWhile_imp hc
  · intro c hc
    rw [List.mem_reverse] at hc
    exact List.mem_takeWhile_imp hc

/-! ### Claim theorems -/

/-- Claim C1: for every score mapping returned by the analyzer, the label
of `classify_sentiment` is fully determined by the compound score via the
fixed inclusive thresholds: compound ≥ 0.05 yields "positive",
compound ≤ −0.05 yields "negative", and otherwise "neutral". -/
theorem classify_sentiment_thresholds (text : String)
    (analyzer : String → PolarityScores) :
    (∀ (text2 : String) (analyzer2 : String → PolarityScores),
        (analyzer text).compound = (analyzer2 text2).compound →
        (classify_sentiment text analyzer).label =
          (classify_sentiment text2 analyzer2).label) ∧
    ((analyzer text).compound ≥ 5/100 →
        (classify_sentiment text analyzer).label = "positive") ∧
    ((analyzer text).compound ≤ -(5/100) →
        (classify_sentiment text analyzer).label = "negative") ∧
    (-(5/100) < (analyzer text).compound → (analyzer text).compound < 5/100 →
        (classify_sentiment text analyzer).label = "neutral") := by
  refine ⟨?_, ?_, ?_, ?_⟩
  · intro text2 analyzer2 hc
    rw [classify_sentiment_label, classify_sentiment_label, hc]
  · intro h
    rw [classify_sentiment_label, if_pos h]
  · intro h
    rw [classify_sentiment_label, if_neg (by linarith), if_pos h]
  · intro h1 h2
    rw [classify_sentiment_label, if_neg (by linarith), if_neg (by linarith)]

/-- Witness for C1 at the three boundary compound scores 0.05, −0.05, 0. -/
theorem classify_sentiment_thresholds_witness :
    (classify_sentiment "good" (fun _ => ⟨0, 0, 0, 5/100⟩)).label =
      "positive" ∧
    (classify_sentiment "bad" (fun _ => ⟨0, 0, 0, -(5/100)⟩)).label =
      "negative" ∧
    (classify_sentiment "meh" (fun _ => ⟨0, 0, 0, 0⟩)).label = "neutral" :=
  ⟨(classify_sentiment_thresholds "good" _).2.1 (by norm_num),
   (classify_sentiment_thresholds "bad" _).2.2.1 (by norm_num),
   (classify_sentiment_thresholds "meh" _).2.2.2 (by norm_num) (by norm_num)⟩

/-- Claim C2: whenever the underlying summarizer yields zero sentences, or
more generally whenever the space-joined summary is empty or
whitespace-only, `summarize_text` returns exactly the placeholder
"(No clear summary generated.)"; it never returns an empty string. -/
theorem summarize_text_placeholder (text : String) (n : Int)
    (summarizer : String → Int → List String) :
    (summarizer text n = [] →
      summarize_text text n summarizer = "(No clear summary generated.)") ∧
    (pyStrip (String.intercalate " " (summarizer text n)) = "" →
      summarize_text text n summarizer = "(No clear summary generated.)") ∧
    summarize_text text n summarizer ≠ "" := by
  refine ⟨?_, ?_, ?_⟩
  · intro h
    rw [summarize_text_eq, h]
    decide
  · intro h
    rw [summarize_text_eq, if_neg (not_not_intro h)]
  · rw [summarize_text_eq]
    by_cases h : pyStrip (String.intercalate " " (summarizer text n)) = ""
    · rw [if_neg (not_not_intro h)]
      decide
    · rw [if_pos h]
      intro he
      exact h (by rw [he]; decide)

/-- Witness for C2: an empty sentence list and a whitespace-only join both
give the placeholder. -/
theorem summarize_text_placeholder_witness :
    summarize_text "abc" 3 (fun _ _ => []) =
      "(No clear summary generated.)" ∧
    summarize_text "abc" 3 (fun _ _ => [" ", "  "]) =
      "(No clear summary generated.)" :=
  ⟨(summarize_text_placeholder "abc" 3 (fun _ _ => [])).1 rfl,
   (summarize_text_placeholder "abc" 3 (fun _ _ => [" ", "  "])).2.1 rfl⟩

/-- Claim C8: `extract_entities` keeps the model's entities in emission
order, preserving duplicates (same length, elementwise projection), and
each element retains only the surface text and label (the span offsets are
not part of `EntityRecord`). -/
theorem extract_entities_order_dup_spans (text : String)
    (nlp : String → List SpacyEnt) :
    (extract_entities text nlp).length = (nlp text).length ∧
    ∀ i : Nat, (extract_entities text nlp)[i]? =
      ((nlp text)[i]?).map (fun ent =>
        ({ text := ent.text, label := ent.label_ } : EntityRecord)) := by
  refine ⟨?_, ?_⟩
  · simp [extract_entities]
  · intro i
    simp [extract_entities]

/-- Claim C9: a missing NER model (an `OSError` on the first load) triggers
the download and exactly one retried load; the retry's failure is fatal and
propagates; and the outcome depends only on the first two load attempts and
the download, so no further retry is ever consulted. -/
theorem load_spacy_retry_once (env : Env) :
    (∀ m, env.nlpLoad 0 = .ok m → load_spacy env = .ok m) ∧
    (env.nlpLoad 0 = .error .osError → env.download = .ok () →
      load_spacy env = env.nlpLoad 1) ∧
    (∀ e, env.nlpLoad 0 = .error .osError → env.download = .ok () →
      env.nlpLoad 1 = .error e → load_spacy env = .error e) ∧
    (∀ env2 : Env, env.nlpLoad 0 = env2.nlpLoad 0 →
      env.nlpLoad 1 = env2.nlpLoad 1 → env.download = env2.download →
      load_spacy env = load_spacy env2) := by
  refine ⟨?_, ?_, ?_, ?_⟩
  · intro m h
    simp [load_spacy, h]
  · intro h0 hd
    simp [load_spacy, h0, hd]
  · intro e h0 hd h1
    simp [load_spacy, h0, hd, h1]
  · intro env2 h0 h1 hd
    unfold load_spacy
    rw [h0, h1, hd]

/-- Witness for C9: with the model missing and the retried load failing,
the failure propagates. -/
theorem load_spacy_retry_once_witness :
    load_spacy envC9 = .error (.ioError "load") :=
  (load_spacy_retry_once envC9).2.2.1 (.ioError "load") rfl rfl rfl

/-- Counterexample to claim C3 as stated: a concrete run in which every
stage succeeds except the HTML write. The JSON file has already been
persisted when the failure occurs, so an execution exists in which the JSON
file is written yet the run fails. -/
theorem json_persists_on_html_failure :
    (main_run args0 envBadHtml).1 =
      .error (.ioError "report_20251012_120000.html") ∧
    (main_run args0 envBadHtml).2.map Prod.fst =
      ["results_20251012_120000.json"] :=
  ⟨rfl, rfl⟩

/-- Claim C3, amended: a failure in input read, model load, or the JSON
write aborts the run with nothing persisted (enrichment is pure in this
model and in the source runs before any write); any failing run persists at
most the JSON file; and an HTML-write failure -- JSON path writable, HTML
enabled, HTML path unwritable -- always aborts the run with exactly the
JSON file persisted. -/
theorem main_run_failure_persists_at_most_json (args : Args) (env : Env) :
    (∀ e, acquire_text args env = .error e → (main_run args env).2 = []) ∧
    (∀ e, load_spacy env = .error e → (main_run args env).2 = []) ∧
    (env.writeOk (json_name args.output env.timestamp) = false →
      (main_run args env).2 = []) ∧
    (∀ e, (main_run args env).1 = .error e →
      (main_run args env).2 = [] ∨
      (args.no_html = false ∧ env.writeOk (html_name env.timestamp) = false ∧
        (main_run args env).2.map Prod.fst =
          [json_name args.output env.timestamp])) ∧
    (∀ text nlp, acquire_text args env = .ok text → load_spacy env = .ok nlp →
      env.writeOk (json_name args.output env.timestamp) = true →
      args.no_html = false → env.writeOk (html_name env.timestamp) = false →
      (main_run args env).1 = .error (.ioError (html_name env.timestamp)) ∧
      (main_run args env).2.map Prod.fst =
        [json_name args.output env.timestamp]) := by
  refine ⟨?_, ?_, ?_, ?_, ?_⟩
  · intro e he
    unfold main_run
    rw [he]
  · intro e he
    cases hA : acquire_text args env with
    | error e2 => unfold main_run; rw [hA]
    | ok text => unfold main_run; rw [hA, he]
  · intro hj
    cases hA : acquire_text args env with
    | error e2 => unfold main_run; rw [hA]
    | ok text =>
        cases hL : load_spacy env with
        | error e2 => unfold main_run; rw [hA, hL]
        | ok nlp =>
            rw [main_run_eq_enrich args env text nlp hA hL,
              enrich_and_output_json_unwritable args env text nlp hj]
  · intro e h
    unfold main_run at h ⊢
    cases hA : acquire_text args env with
    | error e2 => exact Or.inl rfl
    | ok text =>
        rw [hA] at h
        cases hL : load_spacy env with
        | error e2 => exact Or.inl rfl
        | ok nlp =>
            rw [hL] at h
            exact enrich_and_output_err args env text nlp e h
  · intro text nlp hT hL hj hn hh
    rw [main_run_eq_enrich args env text nlp hT hL,
      enrich_and_output_html_fail args env text nlp hj hn hh]
    exact ⟨rfl, rfl⟩

/-- Witness for the amended C3: an unreadable input file persists nothing,
and an unwritable HTML path fails the run with exactly the JSON file
persisted. -/
theorem main_run_failure_persists_at_most_json_witness :
    (main_run args0 envBadRead).2 = [] ∧
    (main_run args0 envBadHtml).1 =
      .error (.ioError "report_20251012_120000.html") ∧
    (main_run args0 envBadHtml).2.map Prod.fst =
      ["results_20251012_120000.json"] :=
  ⟨(main_run_failure_persists_at_most_json args0 envBadRead).1
      (.ioError "in.txt") rfl,
   ((main_run_failure_persists_at_most_json args0 envBadHtml).2.2.2.2
      "Alice met Bob." nlp0 rfl rfl rfl rfl rfl).1,
   ((main_run_failure_persists_at_most_json args0 envBadHtml).2.2.2.2
      "Alice met Bob." nlp0 rfl rfl rfl rfl rfl).2⟩

/-- Claim C4: with an explicit non-empty `--output` value, the JSON file is
named exactly that value, and the HTML file produced alongside it is still
named `report_<timestamp>.html`. -/
theorem explicit_output_name (args : Args) (env : Env)
    (hout : args.output ≠ "") (h : (main_run args env).1 = .ok ()) :
    (main_run args env).2.map Prod.fst =
      if args.no_html then [args.output]
      else [args.output, "report_" ++ env.timestamp ++ ".html"] := by
  obtain ⟨text, nlp, _, _, _, _, h2⟩ := main_run_ok_spec args env h
  rw [h2]
  by_cases hn : args.no_html = true <;>
    simp [hn, json_name, html_name, hout]

/-- Witness for C4: `--output foo.json` with HTML enabled. -/
theorem explicit_output_name_witness :
    (main_run { args0 with output := "foo.json" } env0).2.map Prod.fst =
      ["foo.json", "report_20251012_120000.html"] := by
  have h := explicit_output_name { args0 with output := "foo.json" } env0
    (by decide) rfl
  exact h

/-- Claim C5: every successful run persists the JSON file first; with
`--no-html` set it persists only the JSON file and no HTML report. -/
theorem no_html_flag_behavior (args : Args) (env : Env)
    (h : (main_run args env).1 = .ok ()) :
    (∃ j rest, (main_run args env).2 =
      (json_name args.output env.timestamp, FileData.jsonFile j) :: rest) ∧
    (args.no_html = true →
      (∃ j, (main_run args env).2 =
        [(json_name args.output env.timestamp, FileData.jsonFile j)]) ∧
      ∀ p ∈ (main_run args env).2, ∀ r, p.2 ≠ FileData.htmlFile r) := by
  obtain ⟨text, nlp, _, _, _, _, h2⟩ := main_run_ok_spec args env h
  constructor
  · exact ⟨run_results args env text nlp, _, h2⟩
  · intro hn
    rw [h2, if_pos hn]
    refine ⟨⟨run_results args env text nlp, rfl⟩, ?_⟩
    intro p hp r
    rw [List.mem_singleton] at hp
    rw [hp]
    intro hc
    exact FileData.noConfusion hc

/-- Witness for C5: with `--no-html`, only the JSON file is persisted. -/
theorem no_html_flag_behavior_witness :
    ∃ j, (main_run { args0 with no_html := true } env0).2 =
      [("results_20251012_120000.json", FileData.jsonFile j)] :=
  ((no_html_flag_behavior { args0 with no_html := true } env0 rfl).2 rfl).1

/-- Claim C6: the JSON object a successful run writes has exactly the four
keys summary, entities, sentiment, original_text, in that order. -/
theorem json_output_keys (args : Args) (env : Env)
    (h : (main_run args env).1 = .ok ()) :
    ∃ j rest, (main_run args env).2 =
      (json_name args.output env.timestamp, FileData.jsonFile j) :: rest ∧
      Json.objKeys j = ["summary", "entities", "sentiment", "original_text"] := by
  obtain ⟨text, nlp, _, _, _, _, h2⟩ := main_run_ok_spec args env h
  exact ⟨run_results args env text nlp, _, h2, rfl⟩

/-- Witness for C6 at the sample run. -/
theorem json_output_keys_witness :
    ∃ j rest, (main_run args0 env0).2 =
      ("results_20251012_120000.json", FileData.jsonFile j) :: rest ∧
      Json.objKeys j = ["summary", "entities", "sentiment", "original_text"] :=
  json_output_keys args0 env0 rfl

/-- Claim C7: the `original_text` member of the written results record is
the acquired input text with leading and trailing whitespace stripped, and
the stripped text occurs verbatim inside the input, surrounded only by
whitespace (no other character is altered). -/
theorem original_text_stripped (args : Args) (env : Env) (text : String)
    (hA : acquire_text args env = .ok text)
    (h : (main_run args env).1 = .ok ()) :
    (∃ rest summaryJ entsJ sentJ, (main_run args env).2 =
      (json_name args.output env.timestamp,
        FileData.jsonFile (Json.obj
          [("summary", summaryJ), ("entities", entsJ), ("sentiment", sentJ),
           ("original_text", Json.str (pyStrip text))])) :: rest) ∧
    (∃ pre post, text.data = pre ++ (pyStrip text).data ++ post ∧
      (∀ c ∈ pre, c.isWhitespace) ∧ (∀ c ∈ post, c.isWhitespace)) := by
  obtain ⟨text2, nlp, hA2, _, _, _, h2⟩ := main_run_ok_spec args env h
  rw [hA] at hA2
  injection hA2 with he
  subst he
  rw [run_results_eq] at h2
  exact ⟨⟨_, _, _, _, h2⟩, pyStrip_decomp text⟩

/-- Witness for C7 at the sample run, whose input has no surrounding
whitespace. -/
theorem original_text_stripped_witness :
    ∃ pre post, "Alice met Bob.".data =
      pre ++ (pyStrip "Alice met Bob.").data ++ post ∧
      (∀ c ∈ pre, c.isWhitespace) ∧ (∀ c ∈ post, c.isWhitespace) :=
  (original_text_stripped args0 env0 "Alice met Bob." rfl rfl).2

/-- Claim C10: an empty `--output` value (the argparse default) falls back
to the timestamped JSON name `results_<timestamp>.json` -- which is never
the empty filename -- exactly as if the flag were omitted. -/
theorem empty_output_timestamped (args : Args) (env : Env)
    (hout : args.output = "") (h : (main_run args env).1 = .ok ()) :
    json_name args.output env.timestamp =
      "results_" ++ env.timestamp ++ ".json" ∧
    ("results_" ++ env.timestamp ++ ".json") ≠ "" ∧
    ∃ f rest, (main_run args env).2 =
      ("results_" ++ env.timestamp ++ ".json", f) :: rest := by
  have hj : json_name args.output env.timestamp =
      "results_" ++ env.timestamp ++ ".json" := by
    rw [json_name, if_pos hout]
  refine ⟨hj, ?_, ?_⟩
  · intro hcon
    have hl := congrArg String.length hcon
    rw [String.length_append, String.length_append] at hl
    have h1 : ("results_" : String).length = 8 := rfl
    have h2 : (".json" : String).length = 5 := rfl
    have h3 : ("" : String).length = 0 := rfl
    rw [h1, h2, h3] at hl
    omega
  · obtain ⟨text, nlp, _, _, _, _, h2⟩ := main_run_ok_spec args env h
    rw [hj] at h2
    exact ⟨_, _, h2⟩

/-- Witness for C10 at the sample run, whose `--output` is empty. -/
theorem empty_output_timestamped_witness :
    json_name args0.output env0.timestamp = "results_20251012_120000.json" ∧
    ∃ f rest, (main_run args0 env0).2 =
      ("results_20251012_120000.json", f) :: rest :=
  ⟨(empty_output_timestamped args0 env0 rfl rfl).1,
   (empty_output_timestamped args0 env0 rfl rfl).2.2⟩
